import Mathlib

/-
Shallow embedding of the Strategy Decision Engine of the iron-condor
trading repository (src/iron_condor_strategy.py, src/date_utils.py,
src/models.py), together with theorems settling the frozen claims.

Modelling conventions:
- Python floats are modelled as exact rationals (ℚ).
- datetime.date values are modelled as integer day numbers, with the
  convention that day number 0 falls on a Monday, so that the Python
  Monday = 0 weekday convention becomes plain mod 7.
- Python dicts are modelled as association lists; insertion is modelled
  as prepending, and lookup takes the first match, which matches dict
  read semantics (a later insert under the same key shadows the older
  binding).
- The broker API client is modelled as a record of pure response
  functions (the oracle for one cycle of synchronous calls).
- Each strategy operation additionally returns the list of order
  parameter dicts it submitted to the gateway (`calls`) and, where a
  claim needs them, the order objects the source binds to local
  variables (`placed`); the Bool result and the mutated strategy state
  mirror the source exactly.
-/

namespace IronCondor

/-- Truncation toward zero, matching the Python int() conversion applied to
a numeric value (here an exact rational). -/
def pyTrunc (q : ℚ) : ℤ := if 0 ≤ q then ⌊q⌋ else ⌈q⌉

/-- Round half to even, matching the Python round() builtin on a rational
value (banker rounding, as used on `ce_strike / 50`). -/
def pyRoundHalfEven (q : ℚ) : ℤ :=
  if q - ⌊q⌋ < 1/2 then ⌊q⌋
  else if (1 : ℚ)/2 < q - ⌊q⌋ then ⌊q⌋ + 1
  else if ⌊q⌋ % 2 = 0 then ⌊q⌋ else ⌊q⌋ + 1

/-- Weekday of a day number under the Monday = 0 convention of
datetime.date.weekday (day number 0 is a Monday, Thursday is 3). -/
def pyWeekday (d : ℤ) : ℤ := d % 7

/-- date_utils.get_expiry_date_n_weeks_ahead: target = today + weeks weeks;
the result is target advanced to the Thursday of its week via
(3 - target.weekday()) % 7.  `today` is passed explicitly since the source
reads the ambient clock. -/
def get_expiry_date_n_weeks_ahead (today : ℤ) (weeks : ℤ) : ℤ :=
  let target := today + 7 * weeks
  target + (3 - pyWeekday target) % 7

/-- The call strike computed by place_short_strangle:
ce_strike = int(spot_price + strangle_distance), then rounded to the
nearest multiple of 50 by round(ce_strike / 50) * 50. -/
def computeCeStrike (spot_price strangle_distance : ℚ) : ℤ :=
  pyRoundHalfEven ((pyTrunc (spot_price + strangle_distance) : ℚ) / 50) * 50

/-- The put strike computed by place_short_strangle:
pe_strike = int(spot_price - strangle_distance), then rounded to the
nearest multiple of 50 by round(pe_strike / 50) * 50. -/
def computePeStrike (spot_price strangle_distance : ℚ) : ℤ :=
  pyRoundHalfEven ((pyTrunc (spot_price - strangle_distance) : ℚ) / 50) * 50

theorem pyTrunc_eq_floor {q : ℚ} (h : 0 ≤ q) : pyTrunc q = ⌊q⌋ := by
  simp [pyTrunc, h]

theorem pyRoundHalfEven_le (q : ℚ) : (pyRoundHalfEven q : ℚ) ≤ q + 1/2 := by
  have hf : (⌊q⌋ : ℚ) ≤ q := Int.floor_le q
  have hf1 : q < ⌊q⌋ + 1 := Int.lt_floor_add_one q
  unfold pyRoundHalfEven
  split_ifs with h1 h2 h3 <;> push_cast <;> linarith

theorem le_pyRoundHalfEven (q : ℚ) : q - 1/2 ≤ (pyRoundHalfEven q : ℚ) := by
  have hf : (⌊q⌋ : ℚ) ≤ q := Int.floor_le q
  have hf1 : q < ⌊q⌋ + 1 := Int.lt_floor_add_one q
  unfold pyRoundHalfEven
  split_ifs with h1 h2 h3 <;> push_cast <;> linarith

/-- models.OptionType. -/
inductive OptionType | CE | PE
deriving DecidableEq, Repr

/-- The .value string of an OptionType member. -/
def OptionType.value : OptionType → String
  | .CE => "CE"
  | .PE => "PE"

/-- models.OrderSide. -/
inductive OrderSide | BUY | SELL
deriving DecidableEq, Repr

/-- models.OrderType (the order kind: market, limit, stop, stop-market). -/
inductive OrderType | MARKET | LIMIT | SL | SL_M
deriving DecidableEq, Repr

/-- models.OrderStatus. -/
inductive OrderStatus | PENDING | OPEN | COMPLETE | REJECTED | CANCELLED
deriving DecidableEq, Repr

/-- models.ProductType. -/
inductive ProductType | NRML | MIS | CNC
deriving DecidableEq, Repr

/-- The .value string of a ProductType member. -/
def ProductType.value : ProductType → String
  | .NRML => "NRML"
  | .MIS => "MIS"
  | .CNC => "CNC"

/-- models.OptionContract: one strike/type/expiry live quote.  The expiry
datetime is collapsed to its date (day number); the constant 15:30 time
component is never compared by the strategy code. -/
structure OptionContract where
  symbol : String
  strike_price : ℤ
  option_type : OptionType
  expiry_date : ℤ
  last_price : ℚ
  change_percent : ℚ := 0
  volume : ℤ := 0
  open_interest : ℤ := 0
  bid_price : ℚ := 0
  ask_price : ℚ := 0
deriving DecidableEq, Repr

/-- One strike entry of an option chain: the inner dict mapping "CE"/"PE"
to the contract, each key optionally present. -/
structure StrikeQuotes where
  ce : Option OptionContract := none
  pe : Option OptionContract := none
deriving DecidableEq, Repr

/-- Lookup of the inner per-strike dict by option type value. -/
def StrikeQuotes.get (sq : StrikeQuotes) : OptionType → Option OptionContract
  | .CE => sq.ce
  | .PE => sq.pe

/-- models.OptionChain: spot price plus the strike → quotes dict, for one
expiry date. -/
structure OptionChain where
  expiry_date : ℤ
  spot_price : ℚ
  contracts : List (ℤ × StrikeQuotes)
deriving DecidableEq, Repr

/-- Dict lookup of a strike in the chain (first binding wins). -/
def OptionChain.lookupStrike (chain : OptionChain) (strike : ℤ) : Option StrikeQuotes :=
  (chain.contracts.find? (fun e => e.1 == strike)).map (·.2)

/-- The contract at a given strike and option type, if both dict keys are
present; models the two-level key test of the source. -/
def OptionChain.contract (chain : OptionChain) (strike : ℤ) (otype : OptionType) :
    Option OptionContract :=
  (chain.lookupStrike strike).bind (fun sq => sq.get otype)

/-- models.Order, with the dataclass defaults. -/
structure Order where
  symbol : String
  exchange : String
  order_type : OrderType
  side : OrderSide
  quantity : ℤ
  product : ProductType
  price : ℚ := 0
  trigger_price : ℚ := 0
  order_id : Option String := none
  status : OrderStatus := .PENDING
  option_type : Option OptionType := none
  strike_price : Option ℤ := none
  expiry_date : Option ℤ := none
  is_hedge : Bool := false
  is_martingale : Bool := false
deriving DecidableEq, Repr

/-- models.Position, with the dataclass defaults. -/
structure Position where
  symbol : String
  exchange : String
  quantity : ℤ
  average_price : ℚ
  side : OrderSide
  product : ProductType
  option_type : Option OptionType := none
  strike_price : Option ℤ := none
  expiry_date : Option ℤ := none
  is_hedge : Bool := false
  is_martingale : Bool := false
  pnl : ℚ := 0
deriving DecidableEq, Repr

/-- The order-parameter dict handed to api.place_order.  trigger_price is
an Option because only stop-loss orders carry that key. -/
structure OrderParams where
  trading_symbol : String
  exchange : String
  transaction_type : String
  order_type : String
  quantity : ℤ
  product : String
  price : ℚ
  trigger_price : Option ℚ := none
deriving DecidableEq, Repr

/-- One entry of the option-chain master expiryDates list; expiryDate is
none when the key is absent, falsy, or unparseable, timestamp is none when
the key is absent. -/
structure ExpiryEntry where
  expiryDate : Option ℤ
  timestamp : Option ℤ
deriving DecidableEq, Repr

/-- The option-chain master response: available expiries plus the
instrument token. -/
structure OptionChainMaster where
  expiryDates : List ExpiryEntry
  token : Option String
deriving DecidableEq, Repr

/-- The payload of a successful api.get_option_chain call, before it is
wrapped into an OptionChain. -/
structure OptionChainData where
  spot_price : ℚ
  strikes : List (ℤ × StrikeQuotes)
deriving DecidableEq, Repr

/-- The broker API client for one cycle, as an oracle of pure responses:
none models a falsy / failed response.  place_order returns some (the
response dict) carrying an optional orderId, or none on failure. -/
structure Api where
  place_order : OrderParams → Option (Option String)
  get_option_chain_master : Option OptionChainMaster
  get_option_chain : ℤ → String → Option OptionChainData
  get_positions : Option (List Position)
  get_quote : String → Option ℚ

/-- The configuration keys the embedded operations read
(INVESTMENT_CONFIG and STRATEGY_CONFIG). -/
structure Config where
  lot_size : ℤ
  lots_per_investment : ℤ
  investment_per_lot : ℚ
  leg_premium_target : ℚ
  strangle_distance : ℚ
  sell_expiry_weeks : ℤ
  hedge_expiry_weeks : ℤ
  close_after_weeks : ℤ
  stop_loss_trigger : ℚ
  stop_loss_percentage : ℚ
  martingale_trigger : ℚ
  martingale_quantity_multiplier : ℚ
  martingale_premium_divisor : ℚ
deriving DecidableEq, Repr

/-- The mutable state of the IronCondorStrategy object: active_positions,
active_orders and the option_chains cache, each a dict modelled as an
association list with first-match lookup. -/
structure StrategyState where
  active_positions : List (String × Position)
  active_orders : List (String × Order)
  option_chains : List (ℤ × OptionChain)
deriving DecidableEq, Repr

/-- Dict lookup in the option-chain cache. -/
def lookupChain (chains : List (ℤ × OptionChain)) (d : ℤ) : Option OptionChain :=
  (chains.find? (fun e => e.1 == d)).map (·.2)

/-- The active_orders insertion guarded by `if order.order_id:` — the id
must be present and truthy (the empty string is falsy). -/
def insertOrder (st : StrategyState) (oid : Option String) (order : Order) : StrategyState :=
  match oid with
  | some s => if s = "" then st else { st with active_orders := (s, order) :: st.active_orders }
  | none => st

/-- The scan of option_chain_master.expiryDates: the first entry whose
parsed expiryDate equals the requested date supplies the timestamp and the
loop breaks; entries without an expiryDate are skipped. -/
def findExpiryTimestamp (entries : List ExpiryEntry) (expiry_date : ℤ) : Option ℤ :=
  match entries with
  | [] => none
  | e :: rest =>
    match e.expiryDate with
    | some d => if d = expiry_date then e.timestamp else findExpiryTimestamp rest expiry_date
    | none => findExpiryTimestamp rest expiry_date

/-- iron_condor_strategy.get_option_chain_for_expiry: cached chain if
present, else resolve the expiry in the chain master, fetch the chain,
cache and return it; any missing match, falsy timestamp or token, or
failed fetch returns none with the cache untouched. -/
def get_option_chain_for_expiry (api : Api) (st : StrategyState) (expiry_date : ℤ) :
    Option OptionChain × StrategyState :=
  match lookupChain st.option_chains expiry_date with
  | some chain => (some chain, st)
  | none =>
    match api.get_option_chain_master with
    | none => (none, st)
    | some master =>
      match findExpiryTimestamp master.expiryDates expiry_date with
      | none => (none, st)
      | some ts =>
        if ts = 0 then (none, st) else
        match master.token with
        | none => (none, st)
        | some tok =>
          if tok = "" then (none, st) else
          match api.get_option_chain ts tok with
          | none => (none, st)
          | some data =>
            let chain : OptionChain :=
              { expiry_date := expiry_date, spot_price := data.spot_price,
                contracts := data.strikes }
            (some chain,
             { st with option_chains := (expiry_date, chain) :: st.option_chains })

/-- iron_condor_strategy._place_sell_order (leading underscore dropped):
looks the contract up in the chain, submits a MARKET SELL, and on a truthy
response builds the Order object, recording it in active_orders when its
id is truthy.  The source also computes a premium target from the config
purely for a debug log line; that read has no effect and is omitted.
Returns (created order?, new state, gateway requests issued). -/
def place_sell_order (api : Api) (chain : OptionChain) (strike : ℤ)
    (otype : OptionType) (quantity : ℤ) (st : StrategyState) :
    Option Order × StrategyState × List OrderParams :=
  match chain.contract strike otype with
  | none => (none, st, [])
  | some contract =>
    let params : OrderParams :=
      { trading_symbol := contract.symbol, exchange := "NSE",
        transaction_type := "SELL", order_type := "MARKET",
        quantity := quantity, product := "NRML", price := 0 }
    match api.place_order params with
    | none => (none, st, [params])
    | some oid =>
      let order : Order :=
        { symbol := contract.symbol, exchange := "NSE",
          order_type := OrderType.MARKET, side := OrderSide.SELL,
          quantity := quantity, product := ProductType.NRML,
          price := contract.last_price, option_type := some otype,
          strike_price := some strike, expiry_date := some chain.expiry_date,
          order_id := oid }
      (some order, insertOrder st oid order, [params])

/-- iron_condor_strategy._place_hedge_order (leading underscore dropped):
the hedge strike is sell_strike + 50 for CE and sell_strike - 50 for PE;
submits a MARKET BUY and on success records the Order (is_hedge true). -/
def place_hedge_order (api : Api) (chain : OptionChain) (sell_strike : ℤ)
    (otype : OptionType) (quantity : ℤ) (st : StrategyState) :
    Option Order × StrategyState × List OrderParams :=
  let hedge_strike := if otype = OptionType.CE then sell_strike + 50 else sell_strike - 50
  match chain.contract hedge_strike otype with
  | none => (none, st, [])
  | some contract =>
    let params : OrderParams :=
      { trading_symbol := contract.symbol, exchange := "NSE",
        transaction_type := "BUY", order_type := "MARKET",
        quantity := quantity, product := "NRML", price := 0 }
    match api.place_order params with
    | none => (none, st, [params])
    | some oid =>
      let order : Order :=
        { symbol := contract.symbol, exchange := "NSE",
          order_type := OrderType.MARKET, side := OrderSide.BUY,
          quantity := quantity, product := ProductType.NRML,
          price := contract.last_price, option_type := some otype,
          strike_price := some hedge_strike, expiry_date := some chain.expiry_date,
          order_id := oid, is_hedge := true }
      (some order, insertOrder st oid order, [params])

/-- Result of place_short_strangle: the returned Bool, the mutated state,
the leg Order objects the source binds to local variables (in source
order, only the successfully created ones), and the gateway requests. -/
structure StrangleResult where
  result : Bool
  state : StrategyState
  placed : List Order
  calls : List OrderParams
deriving DecidableEq, Repr

/-- iron_condor_strategy.place_short_strangle.  investment_amount is
received and logged by the source but used in no computation; quantity is
lot_size * lots_per_investment.  Both sell legs are attempted before the
check, then both hedge legs; a failed leg is never cancelled.  The source
also checks the two expiry dates for truthiness, but date objects are
always truthy, so that branch cannot fail. -/
def place_short_strangle (api : Api) (cfg : Config) (today : ℤ)
    (st : StrategyState) (investment_amount : ℚ) (spot_price : ℚ) : StrangleResult :=
  let quantity := cfg.lot_size * cfg.lots_per_investment
  let ce_strike := computeCeStrike spot_price cfg.strangle_distance
  let pe_strike := computePeStrike spot_price cfg.strangle_distance
  let sell_expiry_date := get_expiry_date_n_weeks_ahead today cfg.sell_expiry_weeks
  let hedge_expiry_date := get_expiry_date_n_weeks_ahead today cfg.hedge_expiry_weeks
  let sellFetch := get_option_chain_for_expiry api st sell_expiry_date
  let hedgeFetch := get_option_chain_for_expiry api sellFetch.2 hedge_expiry_date
  match sellFetch.1, hedgeFetch.1 with
  | some sell_chain, some hedge_chain =>
    let ceSell := place_sell_order api sell_chain ce_strike OptionType.CE quantity hedgeFetch.2
    let peSell := place_sell_order api sell_chain pe_strike OptionType.PE quantity ceSell.2.1
    match ceSell.1, peSell.1 with
    | some ce_sell_order, some pe_sell_order =>
      let ceHedge := place_hedge_order api hedge_chain ce_strike OptionType.CE quantity peSell.2.1
      let peHedge := place_hedge_order api hedge_chain pe_strike OptionType.PE quantity ceHedge.2.1
      match ceHedge.1, peHedge.1 with
      | some ce_hedge_order, some pe_hedge_order =>
        { result := true, state := peHedge.2.1,
          placed := [ce_sell_order, pe_sell_order, ce_hedge_order, pe_hedge_order],
          calls := ceSell.2.2 ++ peSell.2.2 ++ ceHedge.2.2 ++ peHedge.2.2 }
      | _, _ =>
        { result := false, state := peHedge.2.1,
          placed := [ce_sell_order, pe_sell_order] ++ ceHedge.1.toList ++ peHedge.1.toList,
          calls := ceSell.2.2 ++ peSell.2.2 ++ ceHedge.2.2 ++ peHedge.2.2 }
    | _, _ =>
      { result := false, state := peSell.2.1,
        placed := ceSell.1.toList ++ peSell.1.toList,
        calls := ceSell.2.2 ++ peSell.2.2 }
  | _, _ => { result := false, state := hedgeFetch.2, placed := [], calls := [] }

/-- Result of handle_stop_loss: the returned Bool, the mutated state and
the gateway requests issued (the stop order and, when reached, the
re-entry sell). -/
structure StopLossResult where
  result : Bool
  state : StrategyState
  calls : List OrderParams
deriving DecidableEq, Repr

/-- The stop order parameter dict built by handle_stop_loss: BUY to close,
order type SL, with price and trigger_price both at
avg * stop_loss_percentage. -/
def stopOrderParams (cfg : Config) (pos : Position) : OrderParams :=
  { trading_symbol := pos.symbol, exchange := pos.exchange,
    transaction_type := "BUY", order_type := "SL",
    quantity := pos.quantity, product := pos.product.value,
    price := pos.average_price * cfg.stop_loss_percentage,
    trigger_price := some (pos.average_price * cfg.stop_loss_percentage) }

/-- iron_condor_strategy.handle_stop_loss.  SELL positions only; the drop
(avg - current)/avg triggers at stop_loss_trigger inclusively; the stop
order (see stopOrderParams) is submitted; after a successful stop order a
re-entry sell at the same strike, type, expiry and quantity is attempted,
and True is returned regardless of the re-entry outcome.  A zero average
price raises ZeroDivisionError in the source, which the broad except
turns into a False return. -/
def handle_stop_loss (api : Api) (cfg : Config) (pos : Position)
    (current_price : ℚ) (st : StrategyState) : StopLossResult :=
  if pos.average_price = 0 then { result := false, state := st, calls := [] }
  else if pos.side = OrderSide.SELL then
    if cfg.stop_loss_trigger ≤ (pos.average_price - current_price) / pos.average_price then
      let stop_loss_price := pos.average_price * cfg.stop_loss_percentage
      let params := stopOrderParams cfg pos
      match api.place_order params with
      | none => { result := false, state := st, calls := [params] }
      | some oid =>
        let order : Order :=
          { symbol := pos.symbol, exchange := pos.exchange,
            order_type := OrderType.SL, side := OrderSide.BUY,
            quantity := pos.quantity, product := pos.product,
            price := stop_loss_price, trigger_price := stop_loss_price,
            option_type := pos.option_type, strike_price := pos.strike_price,
            expiry_date := pos.expiry_date, order_id := oid }
        let st1 := insertOrder st oid order
        match pos.expiry_date with
        | none => { result := true, state := st1, calls := [params] }
        | some expiry =>
          let fetch := get_option_chain_for_expiry api st1 expiry
          match fetch.1, pos.strike_price, pos.option_type with
          | some chain, some strike, some otype =>
            if strike = 0 then { result := true, state := fetch.2, calls := [params] }
            else
              let reentry := place_sell_order api chain strike otype pos.quantity fetch.2
              { result := true, state := reentry.2.1, calls := params :: reentry.2.2 }
          | _, _, _ => { result := true, state := fetch.2, calls := [params] }
    else { result := false, state := st, calls := [] }
  else { result := false, state := st, calls := [] }

/-- The strikes the martingale scan selects: every strike entry of the
chain whose contract of the given option type exists and has last price in
[0.8, 1.2] * target_premium, in chain (dict) order. -/
def matchingStrikes (chain : OptionChain) (otype : OptionType) (target_premium : ℚ) : List ℤ :=
  (chain.contracts.filter (fun e =>
    match e.2.get otype with
    | some c => decide (0.8 * target_premium ≤ c.last_price ∧ c.last_price ≤ 1.2 * target_premium)
    | none => false)).map Prod.fst

/-- The `for strike in sell_strikes` loop of handle_martingale: one MARKET
SELL of new_quantity per strike; a falsy response is skipped with a
warning (continue); a successful one creates the Order (is_martingale
true) and records it when its id is truthy.  Returns (created sell orders,
new state, gateway requests).  The contract lookup cannot miss for strikes
produced by the scan; a miss (possible only for key lists a Python dict
cannot represent) is skipped. -/
def martingaleSellLoop (api : Api) (pos : Position) (otype : OptionType)
    (chain : OptionChain) (new_quantity : ℤ) (strikes : List ℤ) (st : StrategyState) :
    List Order × StrategyState × List OrderParams :=
  match strikes with
  | [] => ([], st, [])
  | strike :: rest =>
    match chain.contract strike otype with
    | none => martingaleSellLoop api pos otype chain new_quantity rest st
    | some contract =>
      let params : OrderParams :=
        { trading_symbol := contract.symbol, exchange := pos.exchange,
          transaction_type := "SELL", order_type := "MARKET",
          quantity := new_quantity, product := pos.product.value, price := 0 }
      match api.place_order params with
      | none =>
        let r := martingaleSellLoop api pos otype chain new_quantity rest st
        (r.1, r.2.1, params :: r.2.2)
      | some oid =>
        let sell_order : Order :=
          { symbol := contract.symbol, exchange := pos.exchange,
            order_type := OrderType.MARKET, side := OrderSide.SELL,
            quantity := new_quantity, product := pos.product,
            price := contract.last_price, option_type := some otype,
            strike_price := some strike, expiry_date := pos.expiry_date,
            order_id := oid, is_martingale := true }
        let r := martingaleSellLoop api pos otype chain new_quantity rest (insertOrder st oid sell_order)
        (sell_order :: r.1, r.2.1, params :: r.2.2)

/-- Result of handle_martingale: the returned Bool, the mutated state, the
martingale buy Order if created, the martingale sell Orders created, and
the gateway requests issued. -/
structure MartingaleResult where
  result : Bool
  state : StrategyState
  buy_placed : Option Order
  sells_placed : List Order
  calls : List OrderParams
deriving DecidableEq, Repr

/-- The martingale hedge-buy parameter dict built by handle_martingale:
a MARKET BUY of the position quantity at the martingale-strike contract. -/
def martingaleBuyParams (pos : Position) (contract : OptionContract) : OrderParams :=
  { trading_symbol := contract.symbol, exchange := pos.exchange,
    transaction_type := "BUY", order_type := "MARKET",
    quantity := pos.quantity, product := pos.product.value, price := 0 }

/-- iron_condor_strategy.handle_martingale.  SELL positions only; the
ratio current/avg triggers at martingale_trigger inclusively.  The
martingale strike is strike + 50 for CE, strike - 50 for PE; a missing
contract there makes the whole handler fall through to return False (only
a warning is logged, and no sell scan runs).  On a successful buy (see
martingaleBuyParams), the scan sells new_quantity = int(quantity *
multiplier) at every strike whose premium is within [0.8, 1.2] of
last_price / divisor; a sell the gateway rejects is skipped with a
warning (continue).  A zero average price raises ZeroDivisionError, which
the broad except turns into False. -/
def handle_martingale (api : Api) (cfg : Config) (pos : Position)
    (current_price : ℚ) (chain : OptionChain) (st : StrategyState) : MartingaleResult :=
  let noAction : MartingaleResult :=
    { result := false, state := st, buy_placed := none, sells_placed := [], calls := [] }
  if pos.average_price = 0 then noAction
  else if pos.side = OrderSide.SELL then
    if cfg.martingale_trigger ≤ current_price / pos.average_price then
      match pos.strike_price, pos.option_type with
      | some strike, some otype =>
        if strike = 0 then noAction
        else
          let martingale_strike := if otype = OptionType.CE then strike + 50 else strike - 50
          match chain.contract martingale_strike otype with
          | none => noAction
          | some contract =>
            let params := martingaleBuyParams pos contract
            match api.place_order params with
            | none => { noAction with calls := [params] }
            | some oid =>
              let buy_order : Order :=
                { symbol := contract.symbol, exchange := pos.exchange,
                  order_type := OrderType.MARKET, side := OrderSide.BUY,
                  quantity := pos.quantity, product := pos.product,
                  price := contract.last_price, option_type := some otype,
                  strike_price := some martingale_strike, expiry_date := pos.expiry_date,
                  order_id := oid, is_martingale := true }
              let st1 := insertOrder st oid buy_order
              let target_premium := contract.last_price / cfg.martingale_premium_divisor
              let new_quantity := pyTrunc ((pos.quantity : ℚ) * cfg.martingale_quantity_multiplier)
              let sell_strikes := matchingStrikes chain otype target_premium
              let r := martingaleSellLoop api pos otype chain new_quantity sell_strikes st1
              { result := true, state := r.2.1, buy_placed := some buy_order,
                sells_placed := r.1, calls := params :: r.2.2 }
      | _, _ => noAction
    else noAction
  else noAction

/-- iron_condor_strategy._update_positions (leading underscore dropped):
a falsy positions response (None or the empty list) leaves the ledger
untouched; otherwise the position dict is rebuilt wholesale from the
response and each position P&L is refreshed from live quotes, skipping
symbols without a quote. -/
def update_positions (api : Api) (st : StrategyState) : StrategyState :=
  match api.get_positions with
  | none => st
  | some ps =>
    if ps.isEmpty then st
    else
      let positions := ps.foldl (fun acc p => (p.symbol, p) :: acc) []
      let positions := positions.map (fun e =>
        match api.get_quote e.1 with
        | none => e
        | some price =>
          (e.1, { e.2 with pnl :=
            if e.2.side = OrderSide.BUY then (price - e.2.average_price) * e.2.quantity
            else (e.2.average_price - price) * e.2.quantity }))
      { st with active_positions := positions }

/-- Result of close_positions_at_expiry and roll_hedge_positions: the
returned Bool, the mutated state, and the gateway requests issued. -/
structure CloseResult where
  result : Bool
  state : StrategyState
  calls : List OrderParams
deriving DecidableEq, Repr

/-- The qualifying positions of close_positions_at_expiry: every active
position whose expiry date is on or before the freshly recomputed close
date get_expiry_date_n_weeks_ahead(close_after_weeks). -/
def expiryCloseCandidates (cfg : Config) (today : ℤ) (st : StrategyState) : List Position :=
  (st.active_positions.map Prod.snd).filter (fun p =>
    match p.expiry_date with
    | some d => decide (d ≤ get_expiry_date_n_weeks_ahead today cfg.close_after_weeks)
    | none => false)

/-- iron_condor_strategy.close_positions_at_expiry: with no qualifying
position it returns False without touching the gateway or the ledger;
otherwise each qualifying position gets one opposite-side MARKET close
order (failures are logged and skipped, and no Order object is created),
after which the ledger is resynchronized. -/
def close_positions_at_expiry (api : Api) (cfg : Config) (today : ℤ)
    (st : StrategyState) : CloseResult :=
  let positions_to_close := expiryCloseCandidates cfg today st
  if positions_to_close.isEmpty then { result := false, state := st, calls := [] }
  else
    let calls := positions_to_close.map (fun p =>
      ({ trading_symbol := p.symbol, exchange := p.exchange,
         transaction_type := if p.side = OrderSide.SELL then "BUY" else "SELL",
         order_type := "MARKET", quantity := p.quantity,
         product := p.product.value, price := 0 } : OrderParams))
    { result := true, state := update_positions api st, calls := calls }

/-- The per-position body of the roll loop: close the old hedge with a
MARKET SELL; a falsy close response skips the replacement (continue); on
success the replacement is attempted through place_hedge_order with the
closed position strike passed as the sell strike.  Returns the new state
and the gateway requests. -/
def rollLoop (api : Api) (chain : OptionChain) (positions : List Position)
    (st : StrategyState) : StrategyState × List OrderParams :=
  match positions with
  | [] => (st, [])
  | p :: rest =>
    let close_params : OrderParams :=
      { trading_symbol := p.symbol, exchange := p.exchange,
        transaction_type := "SELL", order_type := "MARKET",
        quantity := p.quantity, product := p.product.value, price := 0 }
    match api.place_order close_params with
    | none =>
      let r := rollLoop api chain rest st
      (r.1, close_params :: r.2)
    | some _ =>
      match p.strike_price, p.option_type with
      | some strike, some otype =>
        if strike = 0 then
          let r := rollLoop api chain rest st
          (r.1, close_params :: r.2)
        else
          let newHedge := place_hedge_order api chain strike otype p.quantity st
          let r := rollLoop api chain rest newHedge.2.1
          (r.1, close_params :: (newHedge.2.2 ++ r.2))
      | _, _ =>
        let r := rollLoop api chain rest st
        (r.1, close_params :: r.2)

/-- iron_condor_strategy.roll_hedge_positions: every active position
flagged as a hedge whose expiry date is on or before today is closed and
replaced against the chain for the newly computed hedge expiry; with no
such position it returns False untouched; after the loop the ledger is
resynchronized. -/
def roll_hedge_positions (api : Api) (cfg : Config) (today : ℤ)
    (st : StrategyState) : CloseResult :=
  let hedge_positions := (st.active_positions.map Prod.snd).filter (fun p =>
    p.is_hedge && match p.expiry_date with
      | some d => decide (d ≤ today)
      | none => false)
  if hedge_positions.isEmpty then { result := false, state := st, calls := [] }
  else
    let hedge_expiry_date := get_expiry_date_n_weeks_ahead today cfg.hedge_expiry_weeks
    let fetch := get_option_chain_for_expiry api st hedge_expiry_date
    match fetch.1 with
    | none => { result := false, state := fetch.2, calls := [] }
    | some chain =>
      let r := rollLoop api chain hedge_positions fetch.2
      { result := true, state := update_positions api r.1, calls := r.2 }

/-- C7: for every today and every number of weeks, the date returned by
get_expiry_date_n_weeks_ahead falls on a Thursday (weekday 3 under the
Monday = 0 convention) and lies within [today + 7w, today + 7w + 6]; in
particular it is never earlier than today + w weeks.  Stated for all
integer week counts, which covers the claimed w ≥ 0. -/
theorem c7_expiry_n_weeks_ahead_thursday_window (today weeks : ℤ) :
    pyWeekday (get_expiry_date_n_weeks_ahead today weeks) = 3 ∧
    today + 7 * weeks ≤ get_expiry_date_n_weeks_ahead today weeks ∧
    get_expiry_date_n_weeks_ahead today weeks ≤ today + 7 * weeks + 6 := by
  simp only [get_expiry_date_n_weeks_ahead, pyWeekday]
  omega

/-- C10: place_short_strangle behaves identically for any two values of
its investment_amount argument, all other inputs equal: the source only
logs that argument, and the traded quantity is lot_size *
lots_per_investment. -/
theorem c10_strangle_independent_of_investment (api : Api) (cfg : Config)
    (today : ℤ) (st : StrategyState) (a1 a2 spot : ℚ) :
    place_short_strangle api cfg today st a1 spot =
      place_short_strangle api cfg today st a2 spot := rfl

/-- C5 fails as stated: at spot price 20000.25 and strangle distance 1025
the int() truncation drops the fractional part and the banker rounding of
21025 / 50 = 420.5 goes down to the even 420, so the call strike is
21000, strictly below spot + distance - 25 = 21000.25. -/
theorem c5_call_strike_bound_counterexample :
    computeCeStrike (80001/4) 1025 = 21000 ∧
    ((computeCeStrike (80001/4) 1025 : ℚ) < 80001/4 + 1025 - 25) := by
  constructor <;> norm_num [computeCeStrike, pyRoundHalfEven, pyTrunc]

/-- C5 (amended): for every spot price S and strangle distance D with
0 ≤ D ≤ S, both strikes are multiples of 50, the call strike is at least
S + D - 26 (the int() truncation can lose up to one point on top of the
±25 rounding tolerance), and the put strike is at most S - D + 25. -/
theorem c5_strangle_strike_bounds (S D : ℚ) (hD : 0 ≤ D) (hDS : D ≤ S) :
    computeCeStrike S D % 50 = 0 ∧
    computePeStrike S D % 50 = 0 ∧
    S + D - 26 ≤ (computeCeStrike S D : ℚ) ∧
    (computePeStrike S D : ℚ) ≤ S - D + 25 := by
  have hSD : (0 : ℚ) ≤ S + D := by linarith
  have hSD2 : (0 : ℚ) ≤ S - D := by linarith
  have hce : computeCeStrike S D = pyRoundHalfEven ((pyTrunc (S + D) : ℚ) / 50) * 50 := rfl
  have hpe : computePeStrike S D = pyRoundHalfEven ((pyTrunc (S - D) : ℚ) / 50) * 50 := rfl
  refine ⟨by rw [hce]; omega, by rw [hpe]; omega, ?_, ?_⟩
  · have h1 : pyTrunc (S + D) = ⌊S + D⌋ := pyTrunc_eq_floor hSD
    have h2 := le_pyRoundHalfEven ((⌊S + D⌋ : ℚ) / 50)
    have h3 : S + D - 1 < (⌊S + D⌋ : ℚ) := Int.sub_one_lt_floor (S + D)
    rw [hce, h1]
    push_cast
    linarith
  · have h1 : pyTrunc (S - D) = ⌊S - D⌋ := pyTrunc_eq_floor hSD2
    have h2 := pyRoundHalfEven_le ((⌊S - D⌋ : ℚ) / 50)
    have h3 : (⌊S - D⌋ : ℚ) ≤ S - D := Int.floor_le (S - D)
    rw [hpe, h1]
    push_cast
    linarith

/-- Witness for c5_strangle_strike_bounds at spot 20000 and distance 1000:
the hypotheses hold and the strikes land at 21000 and 19000 within the
stated bounds. -/
theorem c5_strangle_strike_bounds_witness :
    (0 : ℚ) ≤ 1000 ∧ (1000 : ℚ) ≤ 20000 ∧
    (computeCeStrike 20000 1000 % 50 = 0 ∧
     computePeStrike 20000 1000 % 50 = 0 ∧
     (20000 : ℚ) + 1000 - 26 ≤ (computeCeStrike 20000 1000 : ℚ) ∧
     (computePeStrike 20000 1000 : ℚ) ≤ 20000 - 1000 + 25) :=
  ⟨by decide, by decide, c5_strangle_strike_bounds 20000 1000 (by decide) (by decide)⟩

/-- C8: every run of get_option_chain_for_expiry is one of three shapes —
a miss returning none with the state (hence the cache) untouched, a cache
hit returning the cached chain with the state untouched, or a successful
fresh fetch whose only state change is the new cache entry for the
requested date.  In particular any failure yields a miss with the cache
unmodified, and a cache entry is added only when the full fetch succeeds. -/
theorem c8_chain_cache_untouched_unless_fetch_succeeds (api : Api)
    (st : StrategyState) (d : ℤ) :
    get_option_chain_for_expiry api st d = (none, st) ∨
    (∃ chain, get_option_chain_for_expiry api st d = (some chain, st) ∧
      lookupChain st.option_chains d = some chain) ∨
    (∃ chain, (get_option_chain_for_expiry api st d).1 = some chain ∧
      (get_option_chain_for_expiry api st d).2 =
        { st with option_chains := (d, chain) :: st.option_chains }) := by
  unfold get_option_chain_for_expiry
  split
  next chain heq => exact Or.inr (Or.inl ⟨chain, rfl, heq⟩)
  next =>
    repeat' split
    all_goals first
      | exact Or.inl rfl
      | exact Or.inr (Or.inr ⟨_, rfl, rfl⟩)

/-- C9: when no active position expires on or before the freshly computed
close date, close_positions_at_expiry issues no gateway call and leaves
the whole strategy state (in particular the active-positions ledger)
unchanged, and a second consecutive call behaves identically. -/
theorem c9_close_positions_idempotent_when_none_qualify (api : Api) (cfg : Config)
    (today : ℤ) (st : StrategyState)
    (h : expiryCloseCandidates cfg today st = []) :
    close_positions_at_expiry api cfg today st =
      { result := false, state := st, calls := [] } ∧
    close_positions_at_expiry api cfg today
        (close_positions_at_expiry api cfg today st).state =
      { result := false, state := st, calls := [] } := by
  have h1 : close_positions_at_expiry api cfg today st =
      { result := false, state := st, calls := [] } := by
    unfold close_positions_at_expiry
    rw [h]
    rfl
  exact ⟨h1, by rw [h1]; exact h1⟩

/-- A sample far-future position used by the c9 witness. -/
def c9Position : Position :=
  { symbol := "NIFTY25JAN21000CE", exchange := "NSE", quantity := 75,
    average_price := 100, side := OrderSide.SELL, product := ProductType.NRML,
    option_type := some OptionType.CE, strike_price := some 21000,
    expiry_date := some 100000 }

/-- A sample strategy state holding only c9Position. -/
def c9State : StrategyState :=
  { active_positions := [("NIFTY25JAN21000CE", c9Position)],
    active_orders := [], option_chains := [] }

/-- A configuration with the repository default horizon values and
integer-valued thresholds, used by concrete witnesses. -/
def witnessConfig : Config :=
  { lot_size := 75, lots_per_investment := 1, investment_per_lot := 150000,
    leg_premium_target := 1, strangle_distance := 1000,
    sell_expiry_weeks := 5, hedge_expiry_weeks := 1, close_after_weeks := 4,
    stop_loss_trigger := 1, stop_loss_percentage := 1,
    martingale_trigger := 2, martingale_quantity_multiplier := 2,
    martingale_premium_divisor := 2 }

/-- An api oracle that fails every request, used by the c9 witness. -/
def nullApi : Api :=
  { place_order := fun _ => none, get_option_chain_master := none,
    get_option_chain := fun _ _ => none, get_positions := none,
    get_quote := fun _ => none }

/-- Witness for c9 at a concrete state whose single position expires far
beyond the close date: no qualifying position, and both consecutive calls
return False leaving the state untouched. -/
theorem c9_close_positions_idempotent_witness :
    expiryCloseCandidates witnessConfig 0 c9State = [] ∧
    (close_positions_at_expiry nullApi witnessConfig 0 c9State =
      { result := false, state := c9State, calls := [] } ∧
    close_positions_at_expiry nullApi witnessConfig 0
        (close_positions_at_expiry nullApi witnessConfig 0 c9State).state =
      { result := false, state := c9State, calls := [] }) :=
  ⟨by decide, c9_close_positions_idempotent_when_none_qualify nullApi witnessConfig 0 c9State (by decide)⟩

/-- The stop-loss trigger condition stated by the claim: a SELL-side
position whose relative price drop reaches stop_loss_trigger, boundary
inclusive. -/
def stopLossTriggered (cfg : Config) (pos : Position) (current_price : ℚ) : Prop :=
  pos.side = OrderSide.SELL ∧
  cfg.stop_loss_trigger ≤ (pos.average_price - current_price) / pos.average_price

instance (cfg : Config) (pos : Position) (current_price : ℚ) :
    Decidable (stopLossTriggered cfg pos current_price) :=
  inferInstanceAs (Decidable (_ ∧ _))

/-- C4: for a position with positive average price, handle_stop_loss
submits a stop order (order type SL, BUY to close, price and trigger price
both avg * stop_loss_percentage) exactly when the position is SELL-side
and (avg - current)/avg ≥ stop_loss_trigger, equality included; for a
BUY-side position or a drop strictly below the threshold it issues no
gateway request at all and returns false. -/
theorem c4_stop_loss_trigger_boundary (api : Api) (cfg : Config) (pos : Position)
    (current_price : ℚ) (st : StrategyState) (h : 0 < pos.average_price) :
    if stopLossTriggered cfg pos current_price then
      (handle_stop_loss api cfg pos current_price st).calls.head? =
          some (stopOrderParams cfg pos) ∧
        (stopOrderParams cfg pos).order_type = "SL" ∧
        (stopOrderParams cfg pos).trading_symbol = pos.symbol ∧
        (stopOrderParams cfg pos).transaction_type = "BUY" ∧
        (stopOrderParams cfg pos).quantity = pos.quantity ∧
        (stopOrderParams cfg pos).price = pos.average_price * cfg.stop_loss_percentage ∧
        (stopOrderParams cfg pos).trigger_price =
          some (pos.average_price * cfg.stop_loss_percentage)
    else (handle_stop_loss api cfg pos current_price st).calls = [] ∧
      (handle_stop_loss api cfg pos current_price st).result = false := by
  by_cases htrig : stopLossTriggered cfg pos current_price
  · rw [if_pos htrig]
    obtain ⟨hside, hdrop⟩ := htrig
    refine ⟨?_, rfl, rfl, rfl, rfl, rfl, rfl⟩
    unfold handle_stop_loss
    rw [if_neg h.ne', if_pos hside, if_pos hdrop]
    simp only []
    repeat' split
    all_goals rfl
  · rw [if_neg htrig]
    unfold handle_stop_loss
    rw [if_neg h.ne']
    by_cases hside : pos.side = OrderSide.SELL
    · rw [if_pos hside,
        if_neg (fun hdrop => htrig ⟨hside, hdrop⟩)]
      exact ⟨rfl, rfl⟩
    · rw [if_neg hside]
      exact ⟨rfl, rfl⟩

/-- A SELL position with average price 100, used by stop-loss and
martingale witnesses. -/
def sellPosition : Position :=
  { symbol := "NIFTY25JAN21000CE", exchange := "NSE", quantity := 75,
    average_price := 100, side := OrderSide.SELL, product := ProductType.NRML,
    option_type := some OptionType.CE, strike_price := some 21000,
    expiry_date := some 25 }

/-- Witness for c4 at average price 100, current price 0 and trigger 1:
the drop hits the threshold exactly, so the stop order is attempted. -/
theorem c4_stop_loss_trigger_boundary_witness :
    (0 : ℚ) < sellPosition.average_price ∧
    (if stopLossTriggered witnessConfig sellPosition 0 then
      (handle_stop_loss nullApi witnessConfig sellPosition 0 c9State).calls.head? =
          some (stopOrderParams witnessConfig sellPosition) ∧
        (stopOrderParams witnessConfig sellPosition).order_type = "SL" ∧
        (stopOrderParams witnessConfig sellPosition).trading_symbol = sellPosition.symbol ∧
        (stopOrderParams witnessConfig sellPosition).transaction_type = "BUY" ∧
        (stopOrderParams witnessConfig sellPosition).quantity = sellPosition.quantity ∧
        (stopOrderParams witnessConfig sellPosition).price =
          sellPosition.average_price * witnessConfig.stop_loss_percentage ∧
        (stopOrderParams witnessConfig sellPosition).trigger_price =
          some (sellPosition.average_price * witnessConfig.stop_loss_percentage)
    else (handle_stop_loss nullApi witnessConfig sellPosition 0 c9State).calls = [] ∧
      (handle_stop_loss nullApi witnessConfig sellPosition 0 c9State).result = false) :=
  ⟨by decide, c4_stop_loss_trigger_boundary nullApi witnessConfig sellPosition 0 c9State (by decide)⟩

/-- Shared fact: when the martingale trigger fires for a truthy SELL
position but the contract at the martingale strike is absent from the
chain, handle_martingale performs no action at all: no gateway call, no
buy, no sell scan, state unchanged, result false. -/
theorem martingale_missing_contract_aborts (api : Api) (cfg : Config)
    (pos : Position) (current_price : ℚ) (chain : OptionChain) (st : StrategyState)
    (h0 : pos.average_price ≠ 0)
    (hside : pos.side = OrderSide.SELL)
    (htrig : cfg.martingale_trigger ≤ current_price / pos.average_price)
    (k : ℤ) (ot : OptionType)
    (hk : pos.strike_price = some k) (hk0 : k ≠ 0)
    (hot : pos.option_type = some ot)
    (hmiss : chain.contract (if ot = OptionType.CE then k + 50 else k - 50) ot = none) :
    handle_martingale api cfg pos current_price chain st =
      { result := false, state := st, buy_placed := none,
        sells_placed := [], calls := [] } := by
  unfold handle_martingale
  rw [if_neg h0, if_pos hside, if_pos htrig, hk, hot]
  simp only []
  rw [if_neg hk0, hmiss]

/-- An api oracle that accepts every order with id OID1 and fails all
data requests, used by concrete martingale runs. -/
def acceptApi : Api :=
  { place_order := fun _ => some (some "OID1"), get_option_chain_master := none,
    get_option_chain := fun _ _ => none, get_positions := none,
    get_quote := fun _ => none }

/-- A chain without the 21050 martingale strike (only 21000 and 20000
carry CE contracts), used by the c6 counterexample. -/
def c6Chain : OptionChain :=
  { expiry_date := 25, spot_price := 21000,
    contracts :=
      [(21000, { ce := some { symbol := "NIFTY25JAN21000CE", strike_price := 21000,
                              option_type := OptionType.CE, expiry_date := 25,
                              last_price := 200 } }),
       (20000, { ce := some { symbol := "NIFTY25JAN20000CE", strike_price := 20000,
                              option_type := OptionType.CE, expiry_date := 25,
                              last_price := 50 } })] }

/-- C6 fails as stated: with the martingale trigger satisfied (ratio
250/100 ≥ 2), a gateway that accepts every order, and a nonempty chain
that merely lacks the 21050 martingale-strike contract, handle_martingale
does not proceed to the sell scan: it issues no gateway request at all,
places nothing, and returns false — the missing contract aborts the whole
handler, not only the buy hedge leg. -/
theorem c6_missing_contract_counterexample :
    handle_martingale acceptApi witnessConfig sellPosition 250 c6Chain c9State =
      { result := false, state := c9State, buy_placed := none,
        sells_placed := [], calls := [] } ∧
    c6Chain.contract 21050 OptionType.CE = none ∧
    c6Chain.contracts.length = 2 ∧
    witnessConfig.martingale_trigger ≤ (250 : ℚ) / sellPosition.average_price := by
  refine ⟨?_, by decide, by decide, by norm_num [witnessConfig, sellPosition]⟩
  exact martingale_missing_contract_aborts acceptApi witnessConfig sellPosition 250
    c6Chain c9State (by norm_num [sellPosition]) rfl
    (by norm_num [witnessConfig, sellPosition]) 21000 OptionType.CE rfl
    (by decide) rfl (by decide)

/-- C6 (amended): when handle_martingale is triggered but the contract at
the martingale strike is absent from the chain, the source logs a warning
and the whole handler falls through to return False: the buy hedge leg is
skipped and the sell scan does not run either — no gateway request is
made and the state is unchanged. -/
theorem c6_missing_contract_skips_whole_handler (api : Api) (cfg : Config)
    (pos : Position) (current_price : ℚ) (chain : OptionChain) (st : StrategyState)
    (h0 : pos.average_price ≠ 0)
    (hside : pos.side = OrderSide.SELL)
    (htrig : cfg.martingale_trigger ≤ current_price / pos.average_price)
    (k : ℤ) (ot : OptionType)
    (hk : pos.strike_price = some k) (hk0 : k ≠ 0)
    (hot : pos.option_type = some ot)
    (hmiss : chain.contract (if ot = OptionType.CE then k + 50 else k - 50) ot = none) :
    handle_martingale api cfg pos current_price chain st =
      { result := false, state := st, buy_placed := none,
        sells_placed := [], calls := [] } :=
  martingale_missing_contract_aborts api cfg pos current_price chain st
    h0 hside htrig k ot hk hk0 hot hmiss

/-- Shared fact used by the c6 witness: the martingale ratio 250/100
reaches the trigger 2. -/
theorem witnessRatioFact :
    witnessConfig.martingale_trigger ≤ (250 : ℚ) / sellPosition.average_price := by
  norm_num [witnessConfig, sellPosition]

/-- Shared fact used by martingale witnesses: the witness position has a
nonzero average price. -/
theorem witnessAvgFact : sellPosition.average_price ≠ 0 := by
  norm_num [sellPosition]

/-- Witness for c6_missing_contract_skips_whole_handler at the concrete
input of the counterexample. -/
theorem c6_missing_contract_skips_whole_handler_witness :
    sellPosition.average_price ≠ 0 ∧
    sellPosition.side = OrderSide.SELL ∧
    witnessConfig.martingale_trigger ≤ (250 : ℚ) / sellPosition.average_price ∧
    sellPosition.strike_price = some 21000 ∧ (21000 : ℤ) ≠ 0 ∧
    sellPosition.option_type = some OptionType.CE ∧
    c6Chain.contract (if OptionType.CE = OptionType.CE then 21000 + 50 else 21000 - 50)
      OptionType.CE = none ∧
    handle_martingale acceptApi witnessConfig sellPosition 250 c6Chain c9State =
      { result := false, state := c9State, buy_placed := none,
        sells_placed := [], calls := [] } :=
  ⟨witnessAvgFact, rfl, witnessRatioFact, rfl, by decide, rfl, by decide,
   c6_missing_contract_skips_whole_handler acceptApi witnessConfig sellPosition 250
     c6Chain c9State witnessAvgFact rfl witnessRatioFact 21000 OptionType.CE rfl
     (by decide) rfl (by decide)⟩

/-- Dict-key lemma: in an association list with pairwise distinct keys,
find? by the key of a member returns that member. -/
theorem find_key_of_mem {α : Type} (l : List (ℤ × α)) (e : ℤ × α)
    (hnodup : (l.map Prod.fst).Nodup) (he : e ∈ l) :
    l.find? (fun x => x.1 == e.1) = some e := by
  induction l with
  | nil => cases he
  | cons a t ih =>
    rcases List.mem_cons.mp he with rfl | ht
    · simp [List.find?_cons]
    · have hne : a.1 ≠ e.1 := by
        intro h1
        have h2 : e.1 ∈ t.map Prod.fst := List.mem_map.mpr ⟨e, ht, rfl⟩
        rw [List.map_cons, List.nodup_cons] at hnodup
        exact hnodup.1 (h1 ▸ h2)
      rw [List.find?_cons]
      simp only [beq_eq_false_iff_ne.mpr hne]
      exact ih (by rw [List.map_cons, List.nodup_cons] at hnodup; exact hnodup.2) ht

/-- Every strike selected by the martingale scan carries a contract of the
scanned option type, provided the chain keys are pairwise distinct (as
Python dict keys always are). -/
theorem matchingStrikes_found (chain : OptionChain) (ot : OptionType) (target : ℚ)
    (hnodup : (chain.contracts.map Prod.fst).Nodup) :
    ∀ s ∈ matchingStrikes chain ot target, (chain.contract s ot).isSome = true := by
  intro s hs
  unfold matchingStrikes at hs
  obtain ⟨e, he, rfl⟩ := List.mem_map.mp hs
  have hef := List.mem_filter.mp he
  have hfind := find_key_of_mem chain.contracts e hnodup hef.1
  have hget : ∃ c, e.2.get ot = some c := by
    rcases hq : e.2.get ot with _ | c
    · rw [hq] at hef
      simp at hef
    · exact ⟨c, rfl⟩
  obtain ⟨c, hc⟩ := hget
  unfold OptionChain.contract OptionChain.lookupStrike
  rw [hfind]
  simp [hc]

/-- The martingale sell loop submits exactly one MARKET SELL of
new_quantity per strike, whatever the gateway answers, and every sell
Order it does create carries new_quantity; a rejected sell is merely
skipped (continue), creating no Order. -/
theorem martingaleSellLoop_submitted (api : Api) (pos : Position) (ot : OptionType)
    (chain : OptionChain) (q : ℤ) :
    ∀ (strikes : List ℤ) (st : StrategyState),
      (∀ s ∈ strikes, (chain.contract s ot).isSome = true) →
      (martingaleSellLoop api pos ot chain q strikes st).2.2.length = strikes.length ∧
      (∀ p ∈ (martingaleSellLoop api pos ot chain q strikes st).2.2,
        p.transaction_type = "SELL" ∧ p.order_type = "MARKET" ∧ p.quantity = q) ∧
      (∀ o ∈ (martingaleSellLoop api pos ot chain q strikes st).1, o.quantity = q) := by
  intro strikes
  induction strikes with
  | nil =>
    intro st _
    refine ⟨rfl, ?_, ?_⟩
    · intro p hp
      cases hp
    · intro o ho
      cases ho
  | cons s rest ih =>
    intro st hfound
    obtain ⟨c, hc⟩ := Option.isSome_iff_exists.mp (hfound s (List.mem_cons_self s rest))
    have hrest : ∀ x ∈ rest, (chain.contract x ot).isSome = true :=
      fun x hx => hfound x (List.mem_cons_of_mem s hx)
    unfold martingaleSellLoop
    rw [hc]
    simp only []
    split
    · have ihr := ih st hrest
      refine ⟨by simpa using ihr.1, ?_, ihr.2.2⟩
      intro p hp
      rcases List.mem_cons.mp hp with rfl | hp2
      · exact ⟨rfl, rfl, rfl⟩
      · exact ihr.2.1 p hp2
    · rename_i oid heq
      have ihr := ih (insertOrder st oid
          { symbol := c.symbol, exchange := pos.exchange,
            order_type := OrderType.MARKET, side := OrderSide.SELL,
            quantity := q, product := pos.product,
            price := c.last_price, option_type := some ot,
            strike_price := some s, expiry_date := pos.expiry_date,
            order_id := oid, is_martingale := true }) hrest
      refine ⟨by simpa using ihr.1, ?_, ?_⟩
      · intro p hp
        rcases List.mem_cons.mp hp with rfl | hp2
        · exact ⟨rfl, rfl, rfl⟩
        · exact ihr.2.1 p hp2
      · intro o ho
        rcases List.mem_cons.mp ho with rfl | ho2
        · rfl
        · exact ihr.2.2 o ho2

/-- Shared fact: once the martingale buy at the present martingale-strike
contract is accepted, handle_martingale records the buy and hands the
matching strikes to the sell loop from some intermediate state: its
sells_placed and calls are exactly the loop results prefixed by the buy
request. -/
theorem martingale_buy_accepted_parts (api : Api) (cfg : Config) (pos : Position)
    (current_price : ℚ) (chain : OptionChain) (st : StrategyState) (resp : Option String)
    (h0 : pos.average_price ≠ 0)
    (hside : pos.side = OrderSide.SELL)
    (htrig : cfg.martingale_trigger ≤ current_price / pos.average_price)
    (k : ℤ) (ot : OptionType) (c : OptionContract)
    (hk : pos.strike_price = some k) (hk0 : k ≠ 0)
    (hot : pos.option_type = some ot)
    (hc : chain.contract (if ot = OptionType.CE then k + 50 else k - 50) ot = some c)
    (hbuy : api.place_order (martingaleBuyParams pos c) = some resp) :
    (handle_martingale api cfg pos current_price chain st).buy_placed.isSome = true ∧
    ∃ st1,
      (handle_martingale api cfg pos current_price chain st).sells_placed =
        (martingaleSellLoop api pos ot chain
          (pyTrunc ((pos.quantity : ℚ) * cfg.martingale_quantity_multiplier))
          (matchingStrikes chain ot (c.last_price / cfg.martingale_premium_divisor)) st1).1 ∧
      (handle_martingale api cfg pos current_price chain st).calls =
        martingaleBuyParams pos c ::
          (martingaleSellLoop api pos ot chain
            (pyTrunc ((pos.quantity : ℚ) * cfg.martingale_quantity_multiplier))
            (matchingStrikes chain ot (c.last_price / cfg.martingale_premium_divisor)) st1).2.2 := by
  unfold handle_martingale
  rw [if_neg h0, if_pos hside, if_pos htrig, hk, hot]
  simp only []
  rw [if_neg hk0, hc]
  simp only []
  rw [hbuy]
  simp only []
  exact ⟨rfl, _, rfl, rfl⟩

/-- C3 (amended): under the triggered, contract-present, buy-accepted
conditions of the claim, the number of martingale SELL orders submitted
to the gateway equals the number of chain strikes carrying a contract of
the position option type whose last price lies within [0.8, 1.2] of
(martingale contract last price) / martingale_premium_divisor; every
submitted sell request, and every sell Order actually created, has
quantity floor(position.quantity * martingale_quantity_multiplier).  A
sell the gateway rejects is skipped with a warning, so the count of
placed sells can fall below the submitted count. -/
theorem c3_martingale_sell_fanout_submitted (api : Api) (cfg : Config) (pos : Position)
    (current_price : ℚ) (chain : OptionChain) (st : StrategyState) (resp : Option String)
    (h0 : pos.average_price ≠ 0)
    (hside : pos.side = OrderSide.SELL)
    (htrig : cfg.martingale_trigger ≤ current_price / pos.average_price)
    (k : ℤ) (ot : OptionType) (c : OptionContract)
    (hk : pos.strike_price = some k) (hk0 : k ≠ 0)
    (hot : pos.option_type = some ot)
    (hc : chain.contract (if ot = OptionType.CE then k + 50 else k - 50) ot = some c)
    (hnodup : (chain.contracts.map Prod.fst).Nodup)
    (hbuy : api.place_order (martingaleBuyParams pos c) = some resp)
    (hq : 0 ≤ pos.quantity) (hm : 0 ≤ cfg.martingale_quantity_multiplier) :
    (handle_martingale api cfg pos current_price chain st).calls.length =
      (matchingStrikes chain ot (c.last_price / cfg.martingale_premium_divisor)).length + 1 ∧
    (∀ p ∈ (handle_martingale api cfg pos current_price chain st).calls.tail,
      p.transaction_type = "SELL" ∧ p.order_type = "MARKET" ∧
      p.quantity = ⌊(pos.quantity : ℚ) * cfg.martingale_quantity_multiplier⌋) ∧
    (∀ o ∈ (handle_martingale api cfg pos current_price chain st).sells_placed,
      o.quantity = ⌊(pos.quantity : ℚ) * cfg.martingale_quantity_multiplier⌋) := by
  have hfloor : pyTrunc ((pos.quantity : ℚ) * cfg.martingale_quantity_multiplier) =
      ⌊(pos.quantity : ℚ) * cfg.martingale_quantity_multiplier⌋ :=
    pyTrunc_eq_floor (mul_nonneg (by exact_mod_cast hq) hm)
  obtain ⟨hbuyS, st1, hsells, hcalls⟩ := martingale_buy_accepted_parts api cfg pos
    current_price chain st resp h0 hside htrig k ot c hk hk0 hot hc hbuy
  have hsub := martingaleSellLoop_submitted api pos ot chain
    (pyTrunc ((pos.quantity : ℚ) * cfg.martingale_quantity_multiplier))
    (matchingStrikes chain ot (c.last_price / cfg.martingale_premium_divisor)) st1
    (matchingStrikes_found chain ot _ hnodup)
  refine ⟨?_, ?_, ?_⟩
  · rw [hcalls]
    simp [hsub.1]
  · rw [hcalls]
    simp only [List.tail_cons]
    intro p hp
    have hper := hsub.2.1 p hp
    exact ⟨hper.1, hper.2.1, by rw [← hfloor]; exact hper.2.2⟩
  · rw [hsells]
    intro o ho
    rw [← hfloor]
    exact hsub.2.2 o ho

/-- The chain used by the c3 witness: the 21050 martingale strike is
present at premium 100, and exactly one strike (20000, premium 50) falls
in the band [0.8, 1.2] * (100 / 2). -/
def c3Chain : OptionChain :=
  { expiry_date := 25, spot_price := 21000,
    contracts :=
      [(21000, { ce := some { symbol := "NIFTY25JAN21000CE", strike_price := 21000,
                              option_type := OptionType.CE, expiry_date := 25,
                              last_price := 200 } }),
       (21050, { ce := some { symbol := "NIFTY25JAN21050CE", strike_price := 21050,
                              option_type := OptionType.CE, expiry_date := 25,
                              last_price := 100 } }),
       (20000, { ce := some { symbol := "NIFTY25JAN20000CE", strike_price := 20000,
                              option_type := OptionType.CE, expiry_date := 25,
                              last_price := 50 } })] }

/-- The martingale-strike contract of c3Chain. -/
def c3Contract : OptionContract :=
  { symbol := "NIFTY25JAN21050CE", strike_price := 21050,
    option_type := OptionType.CE, expiry_date := 25, last_price := 100 }

/-- An api oracle that accepts BUY orders with id OID1 and rejects every
other order, used by the c3 counterexample run. -/
def rejectSellsApi : Api :=
  { place_order := fun p =>
      if p.transaction_type = "BUY" then some (some "OID1") else none,
    get_option_chain_master := none, get_option_chain := fun _ _ => none,
    get_positions := none, get_quote := fun _ => none }

/-- Against rejectSellsApi every martingale sell submission is rejected,
so the loop creates no sell Order at all. -/
theorem martingaleSellLoop_rejectSellsApi (pos : Position) (ot : OptionType)
    (chain : OptionChain) (q : ℤ) :
    ∀ (strikes : List ℤ) (st : StrategyState),
      (martingaleSellLoop rejectSellsApi pos ot chain q strikes st).1 = [] := by
  intro strikes
  induction strikes with
  | nil => intro st; rfl
  | cons s rest ih =>
    intro st
    unfold martingaleSellLoop
    split
    · exact ih st
    · simp only []
      split
      · simp only []
        exact ih st
      · rename_i oid heq
        exact absurd heq (by simp [rejectSellsApi])

/-- C3 fails as stated: at a concrete triggered run whose martingale
contract is present, whose hedge buy order is accepted, and whose chain
has exactly one strike in the premium band, a gateway that rejects the
sell submissions leaves the number of newly placed martingale SELL orders
at 0, not equal to the matching-strike count 1 — the code skips each
rejected sell with continue, so acceptance of the buy alone does not
determine the placed-sell count. -/
theorem c3_rejected_sell_counterexample :
    (handle_martingale rejectSellsApi witnessConfig sellPosition 250 c3Chain
      c9State).buy_placed.isSome = true ∧
    (handle_martingale rejectSellsApi witnessConfig sellPosition 250 c3Chain
      c9State).sells_placed.length = 0 ∧
    (matchingStrikes c3Chain OptionType.CE
      (c3Contract.last_price / witnessConfig.martingale_premium_divisor)).length = 1 := by
  obtain ⟨hbuyS, st1, hsells, hcalls⟩ := martingale_buy_accepted_parts rejectSellsApi
    witnessConfig sellPosition 250 c3Chain c9State (some "OID1") witnessAvgFact rfl
    witnessRatioFact 21000 OptionType.CE c3Contract rfl (by decide) rfl (by decide) rfl
  refine ⟨hbuyS, ?_, ?_⟩
  · rw [hsells, martingaleSellLoop_rejectSellsApi sellPosition OptionType.CE c3Chain _ _ st1]
    rfl
  · norm_num [matchingStrikes, c3Chain, c3Contract, witnessConfig, StrikeQuotes.get,
      List.filter]

/-- Witness for c3_martingale_sell_fanout_submitted at a concrete
triggered run against c3Chain through the always-accepting gateway. -/
theorem c3_martingale_sell_fanout_submitted_witness :
    sellPosition.average_price ≠ 0 ∧
    sellPosition.side = OrderSide.SELL ∧
    witnessConfig.martingale_trigger ≤ (250 : ℚ) / sellPosition.average_price ∧
    sellPosition.strike_price = some 21000 ∧ (21000 : ℤ) ≠ 0 ∧
    sellPosition.option_type = some OptionType.CE ∧
    c3Chain.contract (if OptionType.CE = OptionType.CE then 21000 + 50 else 21000 - 50)
      OptionType.CE = some c3Contract ∧
    (c3Chain.contracts.map Prod.fst).Nodup ∧
    acceptApi.place_order (martingaleBuyParams sellPosition c3Contract) = some (some "OID1") ∧
    (0 : ℤ) ≤ sellPosition.quantity ∧
    (0 : ℚ) ≤ witnessConfig.martingale_quantity_multiplier ∧
    ((handle_martingale acceptApi witnessConfig sellPosition 250 c3Chain c9State).calls.length =
      (matchingStrikes c3Chain OptionType.CE
        (c3Contract.last_price / witnessConfig.martingale_premium_divisor)).length + 1 ∧
    (∀ p ∈ (handle_martingale acceptApi witnessConfig sellPosition 250 c3Chain c9State).calls.tail,
      p.transaction_type = "SELL" ∧ p.order_type = "MARKET" ∧
      p.quantity = ⌊(sellPosition.quantity : ℚ) * witnessConfig.martingale_quantity_multiplier⌋) ∧
    (∀ o ∈ (handle_martingale acceptApi witnessConfig sellPosition 250 c3Chain c9State).sells_placed,
      o.quantity = ⌊(sellPosition.quantity : ℚ) * witnessConfig.martingale_quantity_multiplier⌋)) :=
  ⟨witnessAvgFact, rfl, witnessRatioFact, rfl, by decide, rfl, by decide, by decide,
   rfl, by decide, by decide,
   c3_martingale_sell_fanout_submitted acceptApi witnessConfig sellPosition 250 c3Chain
     c9State (some "OID1") witnessAvgFact rfl witnessRatioFact 21000 OptionType.CE
     c3Contract rfl (by decide) rfl (by decide) (by decide) rfl
     (by decide) (by decide)⟩

/-- Bool predicate: every order of the list that carries a truthy id is
recorded in active_orders under that id. -/
def ordersRecorded (st : StrategyState) (orders : List Order) : Bool :=
  orders.all (fun o =>
    match o.order_id with
    | some s => (s == "") || decide ((s, o) ∈ st.active_orders)
    | none => true)

theorem chainFetch_active_orders (api : Api) (st : StrategyState) (d : ℤ) :
    (get_option_chain_for_expiry api st d).2.active_orders = st.active_orders := by
  unfold get_option_chain_for_expiry
  repeat' split
  all_goals rfl

theorem insertOrder_suffix (st : StrategyState) (oid : Option String) (o : Order) :
    st.active_orders.IsSuffix (insertOrder st oid o).active_orders := by
  unfold insertOrder
  repeat' split
  · exact List.suffix_refl _
  · exact List.suffix_cons _ _
  · exact List.suffix_refl _

theorem insertOrder_mem_self (st : StrategyState) (s : String) (o : Order)
    (hs : s ≠ "") : (s, o) ∈ (insertOrder st (some s) o).active_orders := by
  unfold insertOrder
  simp only []
  rw [if_neg hs]
  exact List.mem_cons_self _ _

theorem place_sell_order_cases (api : Api) (chain : OptionChain) (strike : ℤ)
    (ot : OptionType) (q : ℤ) (st : StrategyState) :
    ((place_sell_order api chain strike ot q st).1 = none ∧
      (place_sell_order api chain strike ot q st).2.1 = st) ∨
    (∃ o, (place_sell_order api chain strike ot q st).1 = some o ∧
      (place_sell_order api chain strike ot q st).2.1 = insertOrder st o.order_id o) := by
  unfold place_sell_order
  simp only []
  repeat' split
  all_goals first
    | exact Or.inl ⟨rfl, rfl⟩
    | exact Or.inr ⟨_, rfl, rfl⟩

theorem place_hedge_order_cases (api : Api) (chain : OptionChain) (sell_strike : ℤ)
    (ot : OptionType) (q : ℤ) (st : StrategyState) :
    ((place_hedge_order api chain sell_strike ot q st).1 = none ∧
      (place_hedge_order api chain sell_strike ot q st).2.1 = st) ∨
    (∃ o, (place_hedge_order api chain sell_strike ot q st).1 = some o ∧
      (place_hedge_order api chain sell_strike ot q st).2.1 = insertOrder st o.order_id o) := by
  unfold place_hedge_order
  simp only []
  repeat' split
  all_goals first
    | exact Or.inl ⟨rfl, rfl⟩
    | exact Or.inr ⟨_, rfl, rfl⟩

theorem place_sell_order_suffix (api : Api) (chain : OptionChain) (strike : ℤ)
    (ot : OptionType) (q : ℤ) (st : StrategyState) :
    st.active_orders.IsSuffix (place_sell_order api chain strike ot q st).2.1.active_orders := by
  rcases place_sell_order_cases api chain strike ot q st with ⟨_, h⟩ | ⟨o, _, h⟩
  · rw [h]
  · rw [h]; exact insertOrder_suffix st o.order_id o

theorem place_hedge_order_suffix (api : Api) (chain : OptionChain) (sell_strike : ℤ)
    (ot : OptionType) (q : ℤ) (st : StrategyState) :
    st.active_orders.IsSuffix (place_hedge_order api chain sell_strike ot q st).2.1.active_orders := by
  rcases place_hedge_order_cases api chain sell_strike ot q st with ⟨_, h⟩ | ⟨o, _, h⟩
  · rw [h]
  · rw [h]; exact insertOrder_suffix st o.order_id o

/-- An order with a truthy id is recorded by inserting it under its own
id. -/
theorem insertOrder_records (st : StrategyState) (o : Order) (s : String)
    (hid : o.order_id = some s) (hs : s ≠ "") :
    (s, o) ∈ (insertOrder st o.order_id o).active_orders := by
  rw [hid]
  exact insertOrder_mem_self st s o hs

/-- Prop form of the per-order record condition: a truthy id implies the
pair is in active_orders. -/
def orderOk (st : StrategyState) (o : Order) : Prop :=
  ∀ s, o.order_id = some s → s ≠ "" → (s, o) ∈ st.active_orders

theorem ordersRecorded_iff (st : StrategyState) (l : List Order) :
    ordersRecorded st l = true ↔ ∀ o ∈ l, orderOk st o := by
  unfold ordersRecorded
  rw [List.all_eq_true]
  refine forall₂_congr (fun o _ => ?_)
  unfold orderOk
  cases h : o.order_id with
  | none => simp
  | some s =>
    by_cases hs : s = ""
    · subst hs
      simp
    · simp [hs]

theorem orderOk_mono {st1 st2 : StrategyState}
    (h : st1.active_orders.IsSuffix st2.active_orders) {o : Order}
    (ho : orderOk st1 o) : orderOk st2 o :=
  fun s hs hne => h.subset (ho s hs hne)

theorem place_sell_order_some_recorded (api : Api) (chain : OptionChain)
    (strike : ℤ) (ot : OptionType) (q : ℤ) (st : StrategyState) (o : Order)
    (h : (place_sell_order api chain strike ot q st).1 = some o) :
    orderOk (place_sell_order api chain strike ot q st).2.1 o := by
  rcases place_sell_order_cases api chain strike ot q st with ⟨h1, _⟩ | ⟨o2, h1, h2⟩
  · rw [h] at h1; cases h1
  · rw [h] at h1
    injection h1 with h1
    subst h1
    rw [h2]
    exact fun s hs hne => insertOrder_records st o s hs hne

theorem place_hedge_order_some_recorded (api : Api) (chain : OptionChain)
    (sell_strike : ℤ) (ot : OptionType) (q : ℤ) (st : StrategyState) (o : Order)
    (h : (place_hedge_order api chain sell_strike ot q st).1 = some o) :
    orderOk (place_hedge_order api chain sell_strike ot q st).2.1 o := by
  rcases place_hedge_order_cases api chain sell_strike ot q st with ⟨h1, _⟩ | ⟨o2, h1, h2⟩
  · rw [h] at h1; cases h1
  · rw [h] at h1
    injection h1 with h1
    subst h1
    rw [h2]
    exact fun s hs hne => insertOrder_records st o s hs hne

theorem optPair_len_ne_four (a b : Option Order) :
    ¬(a.toList ++ b.toList).length = 4 := by
  cases a <;> cases b <;> simp

theorem hedge_fail_len_ne_four (o1 o2 : Order) (x y : Option Order)
    (h : ∀ a b, x = some a → y = some b → False) :
    ¬([o1, o2] ++ x.toList ++ y.toList).length = 4 := by
  cases x with
  | none => cases y <;> simp
  | some a =>
    cases y with
    | none => simp
    | some b => exact absurd (h a b rfl rfl) (fun f => f)

/-- C2: place_short_strangle returns true exactly when all four legs (sell
call, sell put, call hedge, put hedge) were successfully created; the
active-orders book only ever grows (the prior book is a suffix of the new
one, so nothing is cancelled or unwound within the operation), and every
leg that was created with a truthy order id stays recorded in the final
state even when a later leg fails. -/
theorem c2_strangle_four_legs_no_unwind (api : Api) (cfg : Config) (today : ℤ)
    (st : StrategyState) (investment_amount spot_price : ℚ) :
    ((place_short_strangle api cfg today st investment_amount spot_price).result = true ↔
      (place_short_strangle api cfg today st investment_amount spot_price).placed.length = 4) ∧
    st.active_orders.IsSuffix
      (place_short_strangle api cfg today st investment_amount spot_price).state.active_orders ∧
    ordersRecorded (place_short_strangle api cfg today st investment_amount spot_price).state
      (place_short_strangle api cfg today st investment_amount spot_price).placed = true := by
  unfold place_short_strangle
  simp only []
  split
  · split
    · split
      · -- all four legs placed
        rename_i oce ope hce hpe xh1 xh2 oceh opeh hceh hpeh
        refine ⟨by simp, ?_, ?_⟩
        · refine List.IsSuffix.trans ?_ (place_hedge_order_suffix _ _ _ _ _ _)
          refine List.IsSuffix.trans ?_ (place_hedge_order_suffix _ _ _ _ _ _)
          refine List.IsSuffix.trans ?_ (place_sell_order_suffix _ _ _ _ _ _)
          refine List.IsSuffix.trans ?_ (place_sell_order_suffix _ _ _ _ _ _)
          rw [chainFetch_active_orders, chainFetch_active_orders]
        · rw [ordersRecorded_iff]
          intro o ho
          simp only [List.mem_cons, List.not_mem_nil, or_false] at ho
          rcases ho with rfl | rfl | rfl | rfl
          · refine orderOk_mono ?_ (place_sell_order_some_recorded _ _ _ _ _ _ _ hce)
            refine List.IsSuffix.trans ?_ (place_hedge_order_suffix _ _ _ _ _ _)
            refine List.IsSuffix.trans ?_ (place_hedge_order_suffix _ _ _ _ _ _)
            refine List.IsSuffix.trans ?_ (place_sell_order_suffix _ _ _ _ _ _)
            exact List.suffix_refl _
          · refine orderOk_mono ?_ (place_sell_order_some_recorded _ _ _ _ _ _ _ hpe)
            refine List.IsSuffix.trans ?_ (place_hedge_order_suffix _ _ _ _ _ _)
            refine List.IsSuffix.trans ?_ (place_hedge_order_suffix _ _ _ _ _ _)
            exact List.suffix_refl _
          · refine orderOk_mono ?_ (place_hedge_order_some_recorded _ _ _ _ _ _ _ hceh)
            refine List.IsSuffix.trans ?_ (place_hedge_order_suffix _ _ _ _ _ _)
            exact List.suffix_refl _
          · exact place_hedge_order_some_recorded _ _ _ _ _ _ _ hpeh
      · -- hedge legs incomplete
        rename_i hnot
        rename_i oce ope hce hpe xh1 xh2
        refine ⟨iff_of_false (by simp) (hedge_fail_len_ne_four _ _ _ _ hnot), ?_, ?_⟩
        · refine List.IsSuffix.trans ?_ (place_hedge_order_suffix _ _ _ _ _ _)
          refine List.IsSuffix.trans ?_ (place_hedge_order_suffix _ _ _ _ _ _)
          refine List.IsSuffix.trans ?_ (place_sell_order_suffix _ _ _ _ _ _)
          refine List.IsSuffix.trans ?_ (place_sell_order_suffix _ _ _ _ _ _)
          rw [chainFetch_active_orders, chainFetch_active_orders]
        · rw [ordersRecorded_iff]
          intro o ho
          rcases List.mem_append.mp ho with ho1 | ho2
          · rcases List.mem_append.mp ho1 with ho3 | ho4
            · simp only [List.mem_cons, List.not_mem_nil, or_false] at ho3
              rcases ho3 with rfl | rfl
              · refine orderOk_mono ?_ (place_sell_order_some_recorded _ _ _ _ _ _ _ hce)
                refine List.IsSuffix.trans ?_ (place_hedge_order_suffix _ _ _ _ _ _)
                refine List.IsSuffix.trans ?_ (place_hedge_order_suffix _ _ _ _ _ _)
                refine List.IsSuffix.trans ?_ (place_sell_order_suffix _ _ _ _ _ _)
                exact List.suffix_refl _
              · refine orderOk_mono ?_ (place_sell_order_some_recorded _ _ _ _ _ _ _ hpe)
                refine List.IsSuffix.trans ?_ (place_hedge_order_suffix _ _ _ _ _ _)
                refine List.IsSuffix.trans ?_ (place_hedge_order_suffix _ _ _ _ _ _)
                exact List.suffix_refl _
            · have hsome := Option.mem_def.mp (Option.mem_toList.mp ho4)
              refine orderOk_mono ?_ (place_hedge_order_some_recorded _ _ _ _ _ _ _ hsome)
              refine List.IsSuffix.trans ?_ (place_hedge_order_suffix _ _ _ _ _ _)
              exact List.suffix_refl _
          · have hsome := Option.mem_def.mp (Option.mem_toList.mp ho2)
            exact place_hedge_order_some_recorded _ _ _ _ _ _ _ hsome
    · -- sell legs incomplete
      refine ⟨iff_of_false (by simp) (optPair_len_ne_four _ _), ?_, ?_⟩
      · refine List.IsSuffix.trans ?_ (place_sell_order_suffix _ _ _ _ _ _)
        refine List.IsSuffix.trans ?_ (place_sell_order_suffix _ _ _ _ _ _)
        rw [chainFetch_active_orders, chainFetch_active_orders]
      · rw [ordersRecorded_iff]
        intro o ho
        rcases List.mem_append.mp ho with ho1 | ho2
        · have hsome := Option.mem_def.mp (Option.mem_toList.mp ho1)
          refine orderOk_mono ?_ (place_sell_order_some_recorded _ _ _ _ _ _ _ hsome)
          refine List.IsSuffix.trans ?_ (place_sell_order_suffix _ _ _ _ _ _)
          exact List.suffix_refl _
        · have hsome := Option.mem_def.mp (Option.mem_toList.mp ho2)
          exact place_sell_order_some_recorded _ _ _ _ _ _ _ hsome
  · -- chains unavailable
    refine ⟨by simp, ?_, by rfl⟩
    rw [chainFetch_active_orders, chainFetch_active_orders]

/-- An expired hedge position at strike 21050, used by the c1 run. -/
def c1HedgePosition : Position :=
  { symbol := "NIFTY25JAN21050CE", exchange := "NSE", quantity := 75,
    average_price := 30, side := OrderSide.BUY, product := ProductType.NRML,
    option_type := some OptionType.CE, strike_price := some 21050,
    expiry_date := some 0, is_hedge := true }

/-- The chain for the new hedge expiry (day 10): both strike 21050 (the
rolled position strike) and strike 21100 carry CE contracts. -/
def c1Chain : OptionChain :=
  { expiry_date := 10, spot_price := 21000,
    contracts :=
      [(21050, { ce := some { symbol := "NIFTY25FEB21050CE", strike_price := 21050,
                              option_type := OptionType.CE, expiry_date := 10,
                              last_price := 25 } }),
       (21100, { ce := some { symbol := "NIFTY25FEB21100CE", strike_price := 21100,
                              option_type := OptionType.CE, expiry_date := 10,
                              last_price := 20 } })] }

/-- The strategy state of the c1 run: one expired hedge position at strike
21050 and the new hedge-expiry chain already cached under day 10 (which is
get_expiry_date_n_weeks_ahead 0 1). -/
def c1State : StrategyState :=
  { active_positions := [("NIFTY25JAN21050CE", c1HedgePosition)],
    active_orders := [],
    option_chains := [(10, c1Chain)] }

/-- C1 run: rolling the expired hedge at strike 21050 places the
replacement hedge at strike 21100 — not at the same strike — because
roll_hedge_positions passes the closed hedge position strike as the
sell_strike argument of place_hedge_order, which then offsets it by
another +50 for a call (-50 for a put).  The run closes the old leg and
succeeds, so the drift is silent: exactly one new order is recorded and
its strike is 21100 while the only rolled position had strike 21050, even
though the replacement chain does carry a 21050 contract. -/
theorem c1_roll_places_hedge_at_shifted_strike :
    ((roll_hedge_positions acceptApi witnessConfig 0 c1State).state.active_orders.map
      (fun e => e.2.strike_price)) = [some 21100] ∧
    (roll_hedge_positions acceptApi witnessConfig 0 c1State).result = true ∧
    (roll_hedge_positions acceptApi witnessConfig 0 c1State).calls.length = 2 ∧
    c1State.active_positions.map (fun e => e.2.strike_price) = [some 21050] ∧
    (c1Chain.contract 21050 OptionType.CE).isSome = true := by
  refine ⟨?_, ?_, ?_, ?_, ?_⟩ <;> decide

end IronCondor
